import Mathlib

/-!
Verification of the BaseAlert contract from
ambari-agent/src/main/python/ambari_agent/alerts/base_alert.py.

The Python class is shallowly embedded: the instance fields become an
explicit state record, dictionaries become association lists, exceptions
that may escape a method become an Except result, and the single
collector.put call made by collect() becomes the list of emitted
(cluster, record) pairs in the successful result.
-/

namespace AmbariAlert

/-- Values stored in the alert metadata table: string-valued keys such as
name, label, service and componentName, and the integer-valued interval. -/
inductive MetaVal where
  | str (s : String) : MetaVal
  | int (i : Int) : MetaVal
deriving DecidableEq

/-- The alert metadata dictionary (alert_meta). -/
abbrev AlertMeta : Type := List (String × MetaVal)

/-- The source metadata dictionary (alert_source_meta): its reporting entry
maps lowercase state names to dictionaries holding a text template. -/
abbrev SourceMeta : Type := List (String × List (String × List (String × String)))

/-- Dictionary lookup on an association list, first binding wins; none
models a key for which has_key is false. -/
def alookup {α : Type} : List (String × α) → String → Option α
  | [], _ => none
  | (k, v) :: rest, key => if key = k then some v else alookup rest key

/-- The instance fields of a BaseAlert object: alert_meta and
alert_source_meta from the constructor, cluster and hostname from
set_cluster, the accumulated lookup-key list, and the configuration value
dictionary injected by set_helpers. -/
structure ExecState where
  alert_meta : AlertMeta
  alert_source_meta : SourceMeta
  cluster : String
  hostname : String
  lookup_keys : List String
  config_value_dict : List (String × String)
deriving DecidableEq

/-- The RESULT_OK constant of BaseAlert. -/
def RESULT_OK : String := "OK"

/-- The RESULT_WARNING constant of BaseAlert. -/
def RESULT_WARNING : String := "WARNING"

/-- The RESULT_CRITICAL constant of BaseAlert. -/
def RESULT_CRITICAL : String := "CRITICAL"

/-- The RESULT_UNKNOWN constant of BaseAlert. -/
def RESULT_UNKNOWN : String := "UNKNOWN"

/-- interval(): return 1 when the interval key is absent; otherwise return 1
when the stored value is an integer below 1 and the stored value itself
otherwise.  A string-valued interval is returned unchanged, because in
Python 2 a str compares greater than any int, so the below-1 test is false
for it. -/
def interval (m : AlertMeta) : MetaVal :=
  match alookup m "interval" with
  | none => MetaVal.int 1
  | some (MetaVal.int i) => if i < 1 then MetaVal.int 1 else MetaVal.int i
  | some (MetaVal.str s) => MetaVal.str s

/-- find_value(meta_key): return the metadata value when the key is present
and None (here: none) when it is absent; it never raises. -/
def find_value (m : AlertMeta) (meta_key : String) : Option MetaVal :=
  match alookup m meta_key with
  | some v => some v
  | none => none

/-- Whitespace for the purpose of the regex shorthand that matches any
non-whitespace character. -/
def isPySpace (c : Char) : Bool :=
  c = ' ' || c = '\t' || c = '\n' || c = '\r' || c = '\x0b' || c = '\x0c'

/-- Given the maximal non-whitespace run that follows a double opening
brace, return the largest index k, at least 1, such that positions k and
k + 1 of the run hold closing braces: greedy matching of the inner group
backtracks to the last closing double brace inside the run, and the group
is the first k characters. -/
def lastDB (run : List Char) : Option Nat :=
  (List.range run.length).foldl
    (fun acc k =>
      if 1 ≤ k ∧ run.get? k = some '\x7d' ∧ run.get? (k + 1) = some '\x7d'
      then some k else acc)
    none

/-- The group of the leftmost match of the pattern used by
find_lookup_property: two opening braces, a nonempty greedy run of
non-whitespace characters, two closing braces.  Returns none when the key
holds no such token.  The scan advances one character at a time, as the re
module does when a match attempt at a position fails. -/
def findTokenGroup : List Char → Option (List Char)
  | [] => none
  | c :: rest =>
    match c, rest with
    | '\x7b', '\x7b' :: after =>
      match lastDB (after.takeWhile (fun ch => !(isPySpace ch))) with
      | some k => some ((after.takeWhile (fun ch => !(isPySpace ch))).take k)
      | none => findTokenGroup rest
    | _, _ => findTokenGroup rest

/-- True when the raw key holds a parameterization token. -/
def hasLookupToken (key : String) : Bool :=
  (findTokenGroup key.data).isSome

/-- find_lookup_property(key): when the key holds a parameterization token,
append the first token's inner path to lookup_keys (unconditionally, as the
source's list append does) and return the inner path; otherwise return the
key unchanged. -/
def find_lookup_property (st : ExecState) (key : String) : ExecState × String :=
  match findTokenGroup key.data with
  | some g =>
    ({ st with lookup_keys := st.lookup_keys ++ [String.mk g] }, String.mk g)
  | none => (st, key)

/-- lookup_property_value(key): return the key unchanged when it is not in
lookup_keys; otherwise return the configuration dictionary's value for it,
or None (here: none) when the dictionary lacks it. -/
def lookup_property_value (st : ExecState) (key : String) : Option String :=
  if key ∉ st.lookup_keys then some key
  else
    match alookup st.config_value_dict key with
    | some v => some v
    | none => none

/-- Numeric value of a digit run in a format placeholder. -/
def digitsVal (ds : List Char) : Nat :=
  ds.foldl (fun a c => a * 10 + (c.toNat - 48)) 0

/-- String formatting with positional placeholders, on characters, with
fuel: a doubled brace is an escaped literal brace, an opening brace
followed by digits and a closing brace substitutes the argument at that
index, and a lone brace, a malformed field or an out-of-range index is an
error (none), which in the source raises out of the format call. -/
def pyFormatAux : Nat → List Char → List String → Option (List Char)
  | _, [], _ => some []
  | 0, _ :: _, _ => none
  | fuel + 1, '\x7b' :: '\x7b' :: rest, args =>
    (pyFormatAux fuel rest args).map (fun t => '\x7b' :: t)
  | fuel + 1, '\x7d' :: '\x7d' :: rest, args =>
    (pyFormatAux fuel rest args).map (fun t => '\x7d' :: t)
  | fuel + 1, '\x7b' :: rest, args =>
    match rest.dropWhile Char.isDigit with
    | '\x7d' :: rest2 =>
      if (rest.takeWhile Char.isDigit).isEmpty then none
      else
        match args.get? (digitsVal (rest.takeWhile Char.isDigit)) with
        | some a => (pyFormatAux fuel rest2 args).map (fun t => a.data ++ t)
        | none => none
    | _ => none
  | _ + 1, '\x7d' :: _, _ => none
  | fuel + 1, c :: rest, args =>
    (pyFormatAux fuel rest args).map (fun t => c :: t)

/-- res_base_text.format(res arguments): each format step consumes at least
one template character, so the template's length is enough fuel. -/
def pyFormat (tmpl : List Char) (args : List String) : Option (List Char) :=
  pyFormatAux tmpl.length tmpl args

/-- Lowercasing applied to the result state before the reporting lookup. -/
def pyLower (s : String) : String :=
  String.mk (s.data.map Char.toLower)

/-- The textual form of the KeyError raised by a failed dictionary index:
the missing key, quoted. -/
def squote (s : String) : String :=
  "\x27" ++ s ++ "\x27"

/-- The chained lookup alert_source_meta, reporting entry, lowercased state,
text entry; an error carries the str of the KeyError that the failing index
raises. -/
def templateLookup (sm : SourceMeta) (state : String) : Except String String :=
  match alookup sm "reporting" with
  | none => Except.error (squote "reporting")
  | some rep =>
    match alookup rep (pyLower state) with
    | none => Except.error (squote (pyLower state))
    | some entry =>
      match alookup entry "text" with
      | none => Except.error (squote "text")
      | some t => Except.ok t

/-- One behavior of the check-specific hook: either it returns a state
string and an argument list, or evaluating the try block's first two
statements raises an exception with the given str — a raising hook, a
malformed returned state whose lowercasing raises, or any other failure
inside the try block. -/
inductive HookOutcome where
  | ok (state : String) (args : List String) : HookOutcome
  | raiseExc (msg : String) : HookOutcome
deriving DecidableEq

/-- The un-overridden base hook raises NotImplementedError; except Exception
catches it, and str of a bare NotImplementedError is the empty string. -/
def base_collect_outcome : HookOutcome :=
  HookOutcome.raiseExc ""

/-- The try/except block of collect(): on a successful hook and template
lookup, the hook's result pair and the looked-up template; on any exception
inside the block, the UNKNOWN state with the exception's str as sole
argument, and the default template. -/
def resolveRes (st : ExecState) (hook : HookOutcome) :
    (String × List String) × String :=
  match hook with
  | HookOutcome.raiseExc msg => ((RESULT_UNKNOWN, [msg]), "Unknown \x7b0\x7d")
  | HookOutcome.ok s args =>
    match templateLookup st.alert_source_meta s with
    | Except.ok t => ((s, args), t)
    | Except.error emsg => ((RESULT_UNKNOWN, [emsg]), "Unknown \x7b0\x7d")

/-- The normalized record built by collect() and handed to the collector. -/
structure Record where
  name : Option MetaVal
  label : Option MetaVal
  state : String
  text : String
  cluster : String
  service : Option MetaVal
  component : Option MetaVal
deriving DecidableEq

/-- The data dictionary built after the try/except block, given the result
state and the already formatted text. -/
def mkData (st : ExecState) (state : String) (text : String) : Record :=
  { name := find_value st.alert_meta "name"
    label := find_value st.alert_meta "label"
    state := state
    text := text
    cluster := st.cluster
    service := find_value st.alert_meta "service"
    component := find_value st.alert_meta "componentName" }

/-- collect(): run the try/except block, then format the selected template
with the selected arguments — this format call stands outside the
try/except, so its failure raises out of collect() (error) with no record
emitted; otherwise the instance is unchanged and exactly one
(cluster, record) pair goes to the collector. -/
def collect (st : ExecState) (hook : HookOutcome) :
    Except String (ExecState × List (String × Record)) :=
  match pyFormat ((resolveRes st hook).2).data ((resolveRes st hook).1).2 with
  | none => Except.error "IndexError: tuple index out of range"
  | some txt =>
    Except.ok (st, [(st.cluster, mkData st ((resolveRes st hook).1).1 (String.mk txt))])

/-- Unfolding equation for collect, used to reason by cases on the format
step. -/
theorem collect_eq (st : ExecState) (hook : HookOutcome) :
    collect st hook =
      match pyFormat ((resolveRes st hook).2).data ((resolveRes st hook).1).2 with
      | none => Except.error "IndexError: tuple index out of range"
      | some txt =>
        Except.ok (st, [(st.cluster, mkData st ((resolveRes st hook).1).1 (String.mk txt))]) :=
  rfl

/-! Concrete instances used in counterexamples and witnesses. -/

/-- An executor state with every field empty. -/
def emptyState : ExecState :=
  { alert_meta := [], alert_source_meta := [], cluster := "", hostname := "",
    lookup_keys := [], config_value_dict := [] }

/-- Source metadata whose ok template holds one positional placeholder. -/
def c1_source_meta : SourceMeta :=
  [("reporting", [("ok", [("text", "OK \x7b0\x7d")])])]

/-- Executor state for the formatting-failure counterexample. -/
def c1_state : ExecState :=
  { alert_meta := [], alert_source_meta := c1_source_meta, cluster := "",
    hostname := "", lookup_keys := [], config_value_dict := [] }

/-- Executor state with one metadata entry and a cluster tag. -/
def c2_state : ExecState :=
  { alert_meta := [("name", MetaVal.str "n")], alert_source_meta := [],
    cluster := "c", hostname := "h", lookup_keys := [], config_value_dict := [] }

/-- Metadata of the disk_check end-to-end scenario. -/
def c7_meta : AlertMeta :=
  [("name", MetaVal.str "disk_check"), ("label", MetaVal.str "Disk Usage"),
   ("service", MetaVal.str "HDFS"), ("componentName", MetaVal.str "DATANODE"),
   ("interval", MetaVal.int 5)]

/-- Source metadata of the disk_check end-to-end scenario. -/
def c7_source_meta : SourceMeta :=
  [("reporting",
    [("ok", [("text", "Disk OK: \x7b0\x7d% used")]),
     ("critical", [("text", "Disk CRITICAL: \x7b0\x7d% used")])])]

/-- Executor state of the disk_check end-to-end scenario. -/
def c7_state : ExecState :=
  { alert_meta := c7_meta, alert_source_meta := c7_source_meta, cluster := "c1",
    hostname := "h1", lookup_keys := [], config_value_dict := [] }

/-- Source metadata whose warning template asks for a second argument. -/
def c10_source_meta : SourceMeta :=
  [("reporting", [("warning", [("text", "\x7b1\x7d")])])]

/-- Executor state for the no-put-on-failure counterexample. -/
def c10_state : ExecState :=
  { alert_meta := [], alert_source_meta := c10_source_meta, cluster := "cc",
    hostname := "hh", lookup_keys := [], config_value_dict := [] }

/-- State for the lookup_property_value witness: two registered keys, one of
them present in the configuration dictionary. -/
def c5_w_state : ExecState :=
  { alert_meta := [], alert_source_meta := [], cluster := "", hostname := "",
    lookup_keys := ["registered.key", "missing.key"],
    config_value_dict := [("registered.key", "v1")] }

/-- Metadata for the interval witness. -/
def c4_w_meta : AlertMeta := [("interval", MetaVal.int 5)]

/-- Metadata for the find_value witness. -/
def c9_w_meta : AlertMeta := [("name", MetaVal.str "n")]

/-! The claims. -/

/-- C1 counterexample: with an ok template holding one positional
placeholder and a hook returning the OK state with an empty argument list,
the format step — which stands outside collect()'s try/except — raises out
of collect() and no record reaches the collector, so collect() does not
recover every formatting failure. -/
theorem collect_format_mismatch_escapes :
    collect c1_state (HookOutcome.ok "OK" []) =
      Except.error "IndexError: tuple index out of range" := rfl

/-- C1 (amended): collect() absorbs every failure of the hook and of the
template lookup — a raising hook always yields exactly one UNKNOWN record —
and an exception escapes collect() exactly when the selected template fails
to format against the selected arguments, in which case no record is
emitted. -/
theorem collect_absorbs_except_format (st : ExecState) (hook : HookOutcome) :
    (∀ msg, hook = HookOutcome.raiseExc msg →
      ∃ rec, collect st hook = Except.ok (st, [(st.cluster, rec)]) ∧
        rec.state = RESULT_UNKNOWN)
  ∧ ((∃ e, collect st hook = Except.error e) ↔
      pyFormat ((resolveRes st hook).2).data ((resolveRes st hook).1).2 = none) := by
  constructor
  · rintro msg rfl
    exact ⟨_, rfl, rfl⟩
  · constructor
    · rintro ⟨e, he⟩
      rw [collect_eq] at he
      cases hpf : pyFormat ((resolveRes st hook).2).data ((resolveRes st hook).1).2 with
      | none => rfl
      | some t => rw [hpf] at he; exact Except.noConfusion he
    · intro hpf
      exact ⟨_, by rw [collect_eq, hpf]⟩

/-- C1 witness: at a concrete state, a hook raising boom is absorbed into
one UNKNOWN record. -/
theorem collect_absorbs_except_format_witness :
    ∃ rec, collect c1_state (HookOutcome.raiseExc "boom") =
      Except.ok (c1_state, [(c1_state.cluster, rec)]) ∧
      rec.state = RESULT_UNKNOWN :=
  (collect_absorbs_except_format c1_state (HookOutcome.raiseExc "boom")).1 "boom" rfl

/-- C2 counterexample: with the un-overridden base hook, collect() returns
normally — except Exception catches NotImplementedError — and emits one
UNKNOWN record instead of propagating the not-implemented failure. -/
theorem collect_base_hook_not_propagated :
    collect c2_state base_collect_outcome =
      Except.ok (c2_state,
        [("c", { name := some (MetaVal.str "n"), label := none,
                 state := "UNKNOWN", text := "Unknown ", cluster := "c",
                 service := none, component := none })]) := rfl

/-- C2 (amended): the not-implemented failure of the un-overridden base
hook is absorbed inside collect() like every other failure raised during
the hook or the template lookup, producing one UNKNOWN record whose text
comes from the default template and the empty str of the error. -/
theorem collect_base_hook_absorbed (st : ExecState) (msg : String) :
    (∃ rec, collect st base_collect_outcome =
        Except.ok (st, [(st.cluster, rec)]) ∧
        rec.state = RESULT_UNKNOWN ∧ rec.text = "Unknown ")
  ∧ (∃ rec, collect st (HookOutcome.raiseExc msg) =
        Except.ok (st, [(st.cluster, rec)]) ∧ rec.state = RESULT_UNKNOWN) :=
  ⟨⟨_, rfl, rfl, rfl⟩, ⟨_, rfl, rfl⟩⟩

/-- C3 counterexample: two calls of find_lookup_property with the same raw
key append two entries, leaving a duplicate in the lookup-key list. -/
theorem find_lookup_property_duplicate_entry :
    ((find_lookup_property (find_lookup_property emptyState "\x7b\x7ba.b\x7d\x7d").1
        "\x7b\x7ba.b\x7d\x7d").1).lookup_keys = ["a.b", "a.b"] := rfl

/-- C3 (amended): for a raw key holding a parameterization token,
find_lookup_property returns the first token's inner path and appends
exactly one entry to the lookup-key list on every call, even when the path
is already tracked — so a repeated call with the same raw key appends a
duplicate entry. -/
theorem find_lookup_property_token_appends (st : ExecState) (key : String)
    (g : List Char) (h : findTokenGroup key.data = some g) :
    find_lookup_property st key =
      ({ st with lookup_keys := st.lookup_keys ++ [String.mk g] }, String.mk g) := by
  simp [find_lookup_property, h]

/-- C3 witness: a concrete parameterized key appends its inner path. -/
theorem find_lookup_property_token_appends_witness :
    find_lookup_property emptyState "\x7b\x7bx.y\x7d\x7d" =
      ({ emptyState with lookup_keys := emptyState.lookup_keys ++ [String.mk "x.y".data] },
        String.mk "x.y".data) :=
  find_lookup_property_token_appends emptyState "\x7b\x7bx.y\x7d\x7d" "x.y".data rfl

/-- C4: interval() returns 1 when the interval key is absent, and the
maximum of 1 and i when the key holds the integer i. -/
theorem interval_clamped (m : AlertMeta) :
    (alookup m "interval" = none → interval m = MetaVal.int 1)
  ∧ (∀ i : Int, alookup m "interval" = some (MetaVal.int i) →
      interval m = MetaVal.int (max 1 i)) := by
  constructor
  · intro h
    simp [interval, h]
  · intro i h
    simp only [interval, h]
    by_cases hi : i < 1
    · simp only [if_pos hi, MetaVal.int.injEq]
      omega
    · simp only [if_neg hi, MetaVal.int.injEq]
      omega

/-- C4 witness: a stored interval of 5 comes back as the maximum of 1
and 5. -/
theorem interval_clamped_witness :
    interval c4_w_meta = MetaVal.int (max 1 5) :=
  (interval_clamped c4_w_meta).2 5 rfl

/-- C5: lookup_property_value returns the key unchanged when it is not
registered, the configuration value when registered and present, and none
when registered but absent from the dictionary; being total, it never
raises. -/
theorem lookup_property_value_cases (st : ExecState) (key : String) :
    (key ∉ st.lookup_keys → lookup_property_value st key = some key)
  ∧ (key ∈ st.lookup_keys → ∀ v, alookup st.config_value_dict key = some v →
      lookup_property_value st key = some v)
  ∧ (key ∈ st.lookup_keys → alookup st.config_value_dict key = none →
      lookup_property_value st key = none) := by
  refine ⟨?_, ?_, ?_⟩
  · intro h
    simp [lookup_property_value, h]
  · intro h v hv
    simp [lookup_property_value, h, hv]
  · intro h hv
    simp [lookup_property_value, h, hv]

/-- C5 witness: an unregistered key comes back unchanged, a registered and
present key yields its value, and a registered but absent key yields
none. -/
theorem lookup_property_value_cases_witness :
    lookup_property_value c5_w_state "plain" = some "plain"
  ∧ lookup_property_value c5_w_state "registered.key" = some "v1"
  ∧ lookup_property_value c5_w_state "missing.key" = none :=
  ⟨(lookup_property_value_cases c5_w_state "plain").1 (by decide),
   (lookup_property_value_cases c5_w_state "registered.key").2.1 (by decide) "v1" rfl,
   (lookup_property_value_cases c5_w_state "missing.key").2.2 (by decide) rfl⟩

/-- C6: for a key holding no parameterization token, find_lookup_property
returns the key unchanged and leaves the whole state, the lookup-key list
included, unmodified. -/
theorem find_lookup_property_no_token (st : ExecState) (key : String)
    (h : hasLookupToken key = false) :
    find_lookup_property st key = (st, key) := by
  have h' : findTokenGroup key.data = none := by
    cases hg : findTokenGroup key.data with
    | none => rfl
    | some g => simp [hasLookupToken, hg] at h
  simp [find_lookup_property, h']

/-- C6 witness: a plain literal key is returned unchanged with the state
untouched. -/
theorem find_lookup_property_no_token_witness :
    find_lookup_property c5_w_state "plain.literal" = (c5_w_state, "plain.literal") :=
  find_lookup_property_no_token c5_w_state "plain.literal" rfl

/-- C7: the disk_check end-to-end scenario — hook returns the CRITICAL
state with the single argument 92 — emits exactly the claimed record,
tagged with the stored cluster. -/
theorem collect_disk_check_end_to_end :
    collect c7_state (HookOutcome.ok "CRITICAL" ["92"]) =
      Except.ok (c7_state,
        [("c1", { name := some (MetaVal.str "disk_check"),
                  label := some (MetaVal.str "Disk Usage"),
                  state := "CRITICAL",
                  text := "Disk CRITICAL: 92% used",
                  cluster := "c1",
                  service := some (MetaVal.str "HDFS"),
                  component := some (MetaVal.str "DATANODE") })]) := rfl

/-- C8: for every executor state, a hook raising an error whose str is
connection refused yields one emitted record with state UNKNOWN and text
Unknown connection refused. -/
theorem collect_connection_refused (st : ExecState) :
    ∃ rec, collect st (HookOutcome.raiseExc "connection refused") =
      Except.ok (st, [(st.cluster, rec)]) ∧
      rec.state = "UNKNOWN" ∧ rec.text = "Unknown connection refused" :=
  ⟨_, rfl, rfl, rfl⟩

/-- C9: find_value returns the stored metadata value for a present key and
none for an absent key; being total, it never raises. -/
theorem find_value_total (m : AlertMeta) (key : String) :
    (∀ v, alookup m key = some v → find_value m key = some v)
  ∧ (alookup m key = none → find_value m key = none) := by
  constructor
  · intro v h
    simp [find_value, h]
  · intro h
    simp [find_value, h]

/-- C9 witness: a present key yields its value and an absent key yields
none. -/
theorem find_value_total_witness :
    find_value c9_w_meta "name" = some (MetaVal.str "n")
  ∧ find_value c9_w_meta "label" = none :=
  ⟨(find_value_total c9_w_meta "name").1 (MetaVal.str "n") rfl,
   (find_value_total c9_w_meta "label").2 rfl⟩

/-- C10 counterexample: when the selected template's placeholder index is
out of range for the hook's arguments, collect() raises and performs no put
at all — its externally visible effect is not a single put. -/
theorem collect_no_put_on_format_failure :
    collect c10_state (HookOutcome.ok "WARNING" ["x"]) =
      Except.error "IndexError: tuple index out of range" := rfl

/-- C10 (amended): whenever collect() completes without raising, it leaves
every executor field unchanged and its only effect is one put of the stored
cluster tag and the built record; when the final formatting fails it raises
and performs no put. -/
theorem collect_frame_single_put (st : ExecState) (hook : HookOutcome)
    (st' : ExecState) (puts : List (String × Record))
    (h : collect st hook = Except.ok (st', puts)) :
    st' = st ∧ ∃ rec, puts = [(st.cluster, rec)] := by
  rw [collect_eq] at h
  cases hpf : pyFormat ((resolveRes st hook).2).data ((resolveRes st hook).1).2 with
  | none =>
    rw [hpf] at h
    exact Except.noConfusion h
  | some t =>
    rw [hpf] at h
    rw [Except.ok.injEq, Prod.mk.injEq] at h
    exact ⟨h.1.symm, _, h.2.symm⟩

/-- C10 witness: at a concrete state and raising hook, the completed call
returns the unchanged state and one put. -/
theorem collect_frame_single_put_witness :
    c10_state = c10_state ∧
      ∃ rec, [(c10_state.cluster, mkData c10_state RESULT_UNKNOWN "Unknown boom")] =
        [(c10_state.cluster, rec)] :=
  collect_frame_single_put c10_state (HookOutcome.raiseExc "boom") c10_state
    [(c10_state.cluster, mkData c10_state RESULT_UNKNOWN "Unknown boom")] rfl

end AmbariAlert
